import Mathlib

/-
Verification of the sshpunc connection-chain manager and forwarding engine.

The Go program is embedded shallowly:

* SSH clients are identified by their hop index (a `Nat`); the client
  established at hop `i` is the number `i`.
* Network interaction is an oracle `Env`: `hopErr i` is the outcome of the
  dial + handshake for hop `i` performed by `connectHop` (`none` = success,
  `some e` = the error it returns), `closeErr c` is the outcome of
  `(*ssh.Client).Close()` on client `c`, and `keepalive c` is whether the
  `SendRequest "keepalive@golang.org"` probe on client `c` succeeds.
* Side effects (log lines, dials, closes, the local `conn.Close()`) are
  recorded in an event trace, in program order.
* The shared globals `client` / `clientCloser` of main.go are the explicit
  state `SState` threaded through `connect` / `reconnect` / `forward`.
* Go strings are Lean `String`s; for the host parser the character-level
  functions from `strings` are modelled on `List Char`.
-/

namespace Sshpunc

/-- Observable effects of the embedded functions, in program order. -/
inductive Event where
  | log (msg : String)
  | probe (c : Nat)
  | buildCall
  | dialHop (i : Nat)
  | closeCall
  | closeHop (c : Nat)
  | rebuildCall
  | spawnRebuild
  | dialRemote (c : Nat)
  | closeLocal
deriving DecidableEq

/-- An `ssh.ClientConfig`; only its presence (for the per-hop count check)
matters to the embedded control flow, so it is reduced to the user name. -/
abbrev Config := String

/-- Oracle for all network outcomes. -/
structure Env where
  hopErr : Nat → Option String
  closeErr : Nat → Option String
  keepalive : Nat → Bool

/-- The shared globals `client` and `clientCloser` of main.go.  The
`io.Closer` stored in `clientCloser` is an `sshCleanup` value, i.e. the list
of accumulated hop clients; the nil closer is the empty list. -/
structure SState where
  client : Option Nat
  closer : List Nat
deriving DecidableEq

/-- The deferred close calls pushed by `sshCleanup.Close`: one `defer` per
client, pushed in slice order, executed in LIFO order.  `err` is the named
return value; each deferred call runs `e := client.Close(); if err == nil
then err = e`.  Returns the final `err` and the close events in execution
order. -/
def runDefers (clients : List Nat) (closeErr : Nat → Option String)
    (err : Option String) : Option String × List Event :=
  match clients with
  | [] => (err, [])
  | c :: rest =>
    let p := runDefers rest closeErr err
    (if p.1 = none then closeErr c else p.1, p.2 ++ [Event.closeHop c])

/-- `sshCleanup.Close`: closes every accumulated client via the deferred
calls (started from a nil `err`), swallowing panics with a `recover`. -/
def sshCleanupClose (clients : List Nat) (closeErr : Nat → Option String) :
    Option String × List Event :=
  let p := runDefers clients closeErr none
  (p.1, Event.closeCall :: p.2)

/-- `clientAlive` from the Dockerfile-embedded Go source: a nil client is
not alive (no probe, no close); otherwise send a keepalive request, and on
probe failure log, run the cleanup closer and log any close error. -/
def clientAlive (client : Option Nat) (cleanup : List Nat) (env : Env) :
    Bool × List Event :=
  match client with
  | none => (false, [])
  | some c =>
    if env.keepalive c then (true, [Event.probe c])
    else
      let p := sshCleanupClose cleanup env.closeErr
      let tailEv :=
        match p.1 with
        | some e => [Event.log ("Failed to close client connection: " ++ e)]
        | none => []
      (false,
        Event.probe c ::
          Event.log ("Client connection is not responding, closing") ::
          (p.2 ++ tailEv))

/-- The hop loop of `newClient`.  `i` is the index of the next hop, `cur`
the client of the previous hop (the proxy for `connectHop`), `acc` the
clients accumulated in the `sshCleanup`.  Each iteration logs, performs the
`connectHop` dial/handshake (outcome `env.hopErr i`), and on failure logs
the error, runs `c.Close()` (discarding its error) and returns the original
error; on success the new client is appended to the cleanup slice. -/
def newClientLoop (env : Env) (i : Nat) (cur : Option Nat) (acc : List Nat) :
    List String → Except String (Option Nat × List Nat) × List Event
  | [] => (Except.ok (cur, acc), [])
  | addr :: rest =>
    match env.hopErr i with
    | some e =>
      let p := sshCleanupClose acc env.closeErr
      (Except.error e,
        Event.log ("Establishing new connection to " ++ addr) ::
          Event.dialHop i ::
          Event.log ("Failed to connect to " ++ addr ++ ": " ++ e) :: p.2)
    | none =>
      let p := newClientLoop env (i + 1) (some i) (acc ++ [i]) rest
      (p.1,
        Event.log ("Establishing new connection to " ++ addr) ::
          Event.dialHop i :: p.2)

/-- `newClient`: guards (config length mismatch, then empty address list)
before any dial, then the hop loop; on success the final hop's client plus
the accumulated closer slice are returned and the final hop is logged. -/
def newClient (addrs : List String) (configs : List Config) (env : Env) :
    Except String (Option Nat × List Nat) × List Event :=
  if addrs.length ≠ configs.length then
    (Except.error ("newClient: len(config) != len(addrs)"), [Event.buildCall])
  else if addrs.length = 0 then
    (Except.error ("no addresses provided"), [Event.buildCall])
  else
    let p := newClientLoop env 0 none [] addrs
    match p.1 with
    | Except.error e => (Except.error e, Event.buildCall :: p.2)
    | Except.ok q =>
      (Except.ok q,
        Event.buildCall ::
          (p.2 ++ [Event.log ("Connected to final hop " ++ addrs.getLast!)]))

/-- `connect` from main.go: under the client mutex, reuse the shared client
when it is alive, otherwise build a new one; on build failure the shared
`client` is reset to nil (and `clientCloser` was assigned nil by
`newClient`'s return).  Returns (new state, returned client, returned
error, trace). -/
def connect (addrs : List String) (configs : List Config) (st : SState)
    (env : Env) : SState × Option Nat × Option String × List Event :=
  let a := clientAlive st.client st.closer env
  if a.1 then (st, st.client, none, a.2)
  else
    let n := newClient addrs configs env
    match n.1 with
    | Except.ok q => (⟨q.1, q.2⟩, q.1, none, a.2 ++ n.2)
    | Except.error e => (⟨none, []⟩, none, some e, a.2 ++ n.2)

/-- `reconnect` from main.go: build a brand-new chain first; only on
success take the mutex and swap the shared state to the new handle.  On
failure the shared state is untouched. -/
def reconnect (addrs : List String) (configs : List Config) (st : SState)
    (env : Env) : SState × Option Nat × Option String × List Event :=
  let n := newClient addrs configs env
  match n.1 with
  | Except.error e => (st, none, some e, Event.rebuildCall :: n.2)
  | Except.ok q => (⟨q.1, q.2⟩, q.1, none, Event.rebuildCall :: n.2)

/-- `const counterCycle = uint64(1000)`. -/
def counterCycle : Nat := 1000

/-- The modulus of Go's `uint64`. -/
def uint64Mod : Nat := 2 ^ 64

/-- One invocation of `scheduleReconnect`: `atomic.AddUint64(&counter, 1)`
(with uint64 wrap-around) and the cadence test deciding whether a
background `go reconnect` is spawned. -/
def scheduleReconnect (counter : Nat) : Nat × Bool :=
  let c := (counter + 1) % uint64Mod
  (c, c % counterCycle == 0)

/-- `n` sequential invocations of `scheduleReconnect` starting from the
zero-initialised counter; returns the counter value and how many
asynchronous rebuilds were triggered. -/
def schedRun : Nat → Nat × Nat
  | 0 => (0, 0)
  | n + 1 =>
    let p := schedRun n
    let s := scheduleReconnect p.1
    (s.1, p.2 + if s.2 then 1 else 0)

/-- `forward` from main.go, up to the byte-pumping phase.  `dial1` and
`dial2` are the outcomes of the first and (if reached) second
`client.Dial("tcp", remoteAddr)`; `env1` drives `connect`, `env2` the
`reconnect` of the retry path.  The spawned `go scheduleReconnect` is run
inline for its counter effect, its background `go reconnect` recorded as a
`spawnRebuild` event (it runs in another goroutine).  The deferred
`conn.Close()` is the final `closeLocal` event.  Returns (shared state,
counter, whether the session reached the copy phase, trace). -/
def forward (remoteAddr : String) (addrs : List String)
    (configs : List Config) (st : SState) (env1 : Env)
    (dial1 : Option String) (env2 : Env) (dial2 : Option String)
    (counter : Nat) : SState × Nat × Bool × List Event :=
  let c := connect addrs configs st env1
  match c.2.2.1 with
  | some _ => (c.1, counter, false, c.2.2.2 ++ [Event.closeLocal])
  | none =>
    let cl := c.2.1.getD 0
    match dial1 with
    | none =>
      let s := scheduleReconnect counter
      (c.1, s.1, true,
        c.2.2.2 ++ [Event.dialRemote cl] ++
          (if s.2 then [Event.log ("scheduling reconnect"), Event.spawnRebuild]
            else []) ++ [Event.closeLocal])
    | some e =>
      let r := reconnect addrs configs c.1 env2
      let pre := c.2.2.2 ++
        [Event.dialRemote cl,
          Event.log ("Failed to dial " ++ remoteAddr ++
            ", attempting to reconnect: " ++ e)]
      match r.2.2.1 with
      | some _ => (r.1, counter, false, pre ++ r.2.2.2 ++ [Event.closeLocal])
      | none =>
        let cl2 := r.2.1.getD 0
        match dial2 with
        | some e2 =>
          (r.1, counter, false,
            pre ++ r.2.2.2 ++
              [Event.dialRemote cl2,
                Event.log ("Failed to dial " ++ remoteAddr ++ " (final): " ++ e2),
                Event.closeLocal])
        | none =>
          let s := scheduleReconnect counter
          (r.1, s.1, true,
            pre ++ r.2.2.2 ++ [Event.dialRemote cl2] ++
              (if s.2 then
                [Event.log ("scheduling reconnect"), Event.spawnRebuild]
                else []) ++ [Event.closeLocal])

/-- Hop dial/handshake attempts recorded in a trace, in order. -/
def dialsOf (tr : List Event) : List Nat :=
  tr.filterMap fun ev =>
    match ev with
    | Event.dialHop i => some i
    | _ => none

/-- Hop clients closed in a trace, in order. -/
def closesOf (tr : List Event) : List Nat :=
  tr.filterMap fun ev =>
    match ev with
    | Event.closeHop c => some c
    | _ => none

/-- Clients through which a channel to the remote address was opened. -/
def remoteDialsOf (tr : List Event) : List Nat :=
  tr.filterMap fun ev =>
    match ev with
    | Event.dialRemote c => some c
    | _ => none

/-- Log messages of a trace, in order. -/
def logsOf (tr : List Event) : List String :=
  tr.filterMap fun ev =>
    match ev with
    | Event.log s => some s
    | _ => none

/-- Events that only the forwarding session itself can produce (never the
chain builder, the liveness probe or the chain manager). -/
def sessionEvent : Event → Bool
  | Event.rebuildCall => true
  | Event.spawnRebuild => true
  | Event.dialRemote _ => true
  | Event.closeLocal => true
  | _ => false

/-- Splits a character list at the first occurrence of `c`, as
`strings.SplitN(s, string(c), 2)` does when `s` contains `c`. -/
def breakAtChar (c : Char) : List Char → Option (List Char × List Char)
  | [] => none
  | x :: xs =>
    if x = c then some ([], xs)
    else
      match breakAtChar c xs with
      | none => none
      | some p => some (x :: p.1, p.2)

/-- `splitSingleHost` from main.go, on the character level: reject hosts
without `@`, split at the first `@`, and append `:22` to the address when
it contains no colon. -/
def splitSingleHost (host : List Char) : Except String (List Char × List Char) :=
  match breakAtChar '@' host with
  | none => Except.error ("host does not contain a username")
  | some p =>
    if p.2.contains ':' then Except.ok (p.1, p.2)
    else Except.ok (p.1, p.2 ++ String.toList (":22"))

/-- An environment in which every dial, handshake, close and probe
succeeds. -/
def envAllOk : Env := ⟨fun _ => none, fun _ => none, fun _ => true⟩

/-- An environment in which the very first hop dial fails with `boom`. -/
def envBoom : Env := ⟨fun _ => some ("boom"), fun _ => none, fun _ => true⟩

/-- An environment in which hop 0 succeeds, hop 1 fails with `neterr`, and
every client close fails with `closefail`. -/
def envDrop : Env :=
  ⟨fun i => if i = 0 then none else some ("neterr"),
    fun _ => some ("closefail"), fun _ => true⟩

/-- An environment whose keepalive probe always fails. -/
def envDead : Env := ⟨fun _ => none, fun _ => none, fun _ => false⟩

/-- An environment whose keepalive probe and hop dials all fail. -/
def envDown : Env := ⟨fun _ => some ("down"), fun _ => none, fun _ => false⟩

/-- Concatenation of all log messages of a trace, as characters. -/
def concatLogs : List Event → List Char
  | [] => []
  | Event.log s :: tr => s.toList ++ concatLogs tr
  | _ :: tr => concatLogs tr

/-- A trace that contains none of the events private to the forwarding
session. -/
def sessionFree (tr : List Event) : Prop := ∀ ev ∈ tr, sessionEvent ev = false

theorem runDefers_eq (closeErr : Nat → Option String) :
    ∀ (clients : List Nat) (err : Option String),
      runDefers clients closeErr err =
        (err.or (clients.reverse.findSome? closeErr),
          clients.reverse.map Event.closeHop) := by
  intro clients
  induction clients with
  | nil => intro err; cases err <;> simp [runDefers]
  | cons c rest ih =>
    intro err
    simp only [runDefers, ih err, List.reverse_cons, List.map_append,
      List.findSome?_append, List.map_cons, List.map_nil]
    cases err with
    | none =>
      cases h : rest.reverse.findSome? closeErr <;>
        cases hc : closeErr c <;>
          simp [Option.or, List.findSome?, h, hc]
    | some e => simp [Option.or]

theorem sshCleanupClose_eq (clients : List Nat) (closeErr : Nat → Option String) :
    sshCleanupClose clients closeErr =
      (clients.reverse.findSome? closeErr,
        Event.closeCall :: clients.reverse.map Event.closeHop) := by
  simp [sshCleanupClose, runDefers_eq, Option.or]

theorem closesOf_map_closeHop (l : List Nat) :
    closesOf (l.map Event.closeHop) = l := by
  induction l with
  | nil => rfl
  | cons c rest ih => simp [closesOf, List.filterMap_cons] at ih ⊢; simp [ih]

theorem dialsOf_map_closeHop (l : List Nat) :
    dialsOf (l.map Event.closeHop) = [] := by
  induction l with
  | nil => rfl
  | cons c rest ih => simp [dialsOf, List.filterMap_cons]

theorem newClientLoop_fail (env : Env) (e : String) :
    ∀ (f : Nat) (rest : List String) (i : Nat) (cur : Option Nat)
      (acc : List Nat) (hf : f < rest.length),
      (∀ t, t < f → env.hopErr (i + t) = none) →
      env.hopErr (i + f) = some e →
      (newClientLoop env i cur acc rest).1 = Except.error e ∧
      dialsOf (newClientLoop env i cur acc rest).2 = List.range' i (f + 1) ∧
      closesOf (newClientLoop env i cur acc rest).2 =
        (acc ++ List.range' i f).reverse ∧
      Event.log ("Failed to connect to " ++ rest.get ⟨f, hf⟩ ++ ": " ++ e) ∈
        (newClientLoop env i cur acc rest).2 := by
  intro f
  induction f with
  | zero =>
    intro rest i cur acc hf hpre hfail
    cases rest with
    | nil => simp at hf
    | cons addr rest' =>
      rw [Nat.add_zero] at hfail
      simp only [newClientLoop, hfail, sshCleanupClose_eq]
      refine ⟨?_, ?_, ?_, ?_⟩
      · trivial
      · simp [dialsOf, List.filterMap_cons, dialsOf_map_closeHop]
      · have h := closesOf_map_closeHop acc.reverse
        simp only [closesOf, List.filterMap_cons] at h ⊢
        simp only [h]
        simp [List.range']
      · simp [List.get]
  | succ f ih =>
    intro rest i cur acc hf hpre hfail
    cases rest with
    | nil => simp at hf
    | cons addr rest' =>
      have h0 : env.hopErr i = none := by
        have := hpre 0 (Nat.succ_pos f); simpa using this
      have hf' : f < rest'.length := by simpa using hf
      have hpre' : ∀ t, t < f → env.hopErr (i + 1 + t) = none := by
        intro t ht
        have := hpre (t + 1) (by omega)
        rwa [show i + (t + 1) = i + 1 + t by omega] at this
      have hfail' : env.hopErr (i + 1 + f) = some e := by
        rwa [show i + (f + 1) = i + 1 + f by omega] at hfail
      obtain ⟨h1, h2, h3, h4⟩ :=
        ih rest' (i + 1) (some i) (acc ++ [i]) hf' hpre' hfail'
      simp only [newClientLoop, h0]
      refine ⟨h1, ?_, ?_, ?_⟩
      · simp only [dialsOf, List.filterMap_cons] at h2 ⊢
        simp only [h2]
        rfl
      · simp only [closesOf, List.filterMap_cons] at h3 ⊢
        simp only [h3, List.append_assoc, List.singleton_append]
        rfl
      · simp only [List.get] at h4 ⊢
        exact List.mem_cons_of_mem _ (List.mem_cons_of_mem _ h4)

theorem newClient_fail (addrs : List String) (configs : List Config)
    (env : Env) (k : Nat) (e : String)
    (hlen : addrs.length = configs.length) (hk : k < addrs.length)
    (hpre : ∀ j, j < k → env.hopErr j = none)
    (hfail : env.hopErr k = some e) :
    (newClient addrs configs env).1 = Except.error e ∧
    dialsOf (newClient addrs configs env).2 = List.range (k + 1) ∧
    closesOf (newClient addrs configs env).2 = (List.range k).reverse ∧
    Event.log ("Failed to connect to " ++ addrs.get ⟨k, hk⟩ ++ ": " ++ e) ∈
      (newClient addrs configs env).2 := by
  obtain ⟨h1, h2, h3, h4⟩ :=
    newClientLoop_fail env e k addrs 0 none [] hk
      (fun t ht => by simpa using hpre t ht) (by simpa using hfail)
  have hg : newClient addrs configs env =
      (Except.error e,
        Event.buildCall :: (newClientLoop env 0 none [] addrs).2) := by
    rw [newClient, if_neg (by omega : ¬ addrs.length ≠ configs.length),
      if_neg (by omega : ¬ addrs.length = 0)]
    simp only [h1]
  rw [hg]
  refine ⟨rfl, ?_, ?_, ?_⟩
  · simp only [dialsOf, List.filterMap_cons] at h2 ⊢
    rw [h2, ← List.range_eq_range']
  · simp only [closesOf, List.filterMap_cons] at h3 ⊢
    rw [h3, ← List.range_eq_range']
    simp
  · exact List.mem_cons_of_mem _ h4

theorem newClient_buildCall (addrs : List String) (configs : List Config)
    (env : Env) : Event.buildCall ∈ (newClient addrs configs env).2 := by
  simp only [newClient]
  split
  · simp
  · split
    · simp
    · split <;> simp

theorem reconnect_trace (addrs : List String) (configs : List Config)
    (st : SState) (env : Env) :
    (reconnect addrs configs st env).2.2.2 =
      Event.rebuildCall :: (newClient addrs configs env).2 := by
  simp only [reconnect]
  split <;> rfl

theorem sessionFree_map_closeHop (l : List Nat) :
    sessionFree (l.map Event.closeHop) := by
  intro ev hev
  obtain ⟨c, _, rfl⟩ := List.mem_map.mp hev
  rfl

theorem sessionFree_clientAlive (client : Option Nat) (cleanup : List Nat)
    (env : Env) : sessionFree (clientAlive client cleanup env).2 := by
  intro ev hev
  cases ev <;> try rfl
  all_goals
  cases client with
  | none => simp [clientAlive] at hev
  | some c =>
    by_cases hk : env.keepalive c
    · simp [clientAlive, hk] at hev
    · rcases hcl : cleanup.reverse.findSome? env.closeErr with _ | e2 <;>
        simp [clientAlive, hk, sshCleanupClose_eq, hcl] at hev

theorem sessionFree_newClientLoop (env : Env) :
    ∀ (rest : List String) (i : Nat) (cur : Option Nat) (acc : List Nat),
      sessionFree (newClientLoop env i cur acc rest).2 := by
  intro rest
  induction rest with
  | nil => intro i cur acc ev hev; simp [newClientLoop] at hev
  | cons addr rest' ih =>
    intro i cur acc ev hev
    rcases hh : env.hopErr i with _ | e <;>
      simp only [newClientLoop, hh, sshCleanupClose_eq, List.mem_cons,
        List.mem_map] at hev
    · rcases hev with rfl | rfl | h
      · rfl
      · rfl
      · exact ih (i + 1) (some i) (acc ++ [i]) ev h
    · rcases hev with rfl | rfl | rfl | rfl | ⟨x, _, hxe⟩
      · rfl
      · rfl
      · rfl
      · rfl
      · rw [← hxe]; rfl

theorem sessionFree_newClient (addrs : List String) (configs : List Config)
    (env : Env) : sessionFree (newClient addrs configs env).2 := by
  intro ev hev
  simp only [newClient] at hev
  split at hev
  · simp only [List.mem_singleton] at hev; subst hev; rfl
  · split at hev
    · simp only [List.mem_singleton] at hev; subst hev; rfl
    · split at hev <;>
        simp only [List.mem_cons, List.mem_append, List.mem_singleton] at hev
      · rcases hev with rfl | h
        · rfl
        · exact sessionFree_newClientLoop env addrs 0 none [] ev h
      · rcases hev with rfl | h | rfl | h2
        · rfl
        · exact sessionFree_newClientLoop env addrs 0 none [] ev h
        · rfl
        · simp at h2

theorem sessionFree_connect (addrs : List String) (configs : List Config)
    (st : SState) (env : Env) :
    sessionFree (connect addrs configs st env).2.2.2 := by
  intro ev hev
  simp only [connect] at hev
  split at hev
  · exact sessionFree_clientAlive st.client st.closer env ev hev
  · split at hev <;>
      rcases List.mem_append.mp hev with h | h
    · exact sessionFree_clientAlive st.client st.closer env ev h
    · exact sessionFree_newClient addrs configs env ev h
    · exact sessionFree_clientAlive st.client st.closer env ev h
    · exact sessionFree_newClient addrs configs env ev h

theorem sessionFree_count_rebuild (tr : List Event) (h : sessionFree tr) :
    tr.count Event.rebuildCall = 0 :=
  List.count_eq_zero.mpr fun hm => by simpa [sessionEvent] using h _ hm

theorem sessionFree_remoteDials (tr : List Event) (h : sessionFree tr) :
    remoteDialsOf tr = [] := by
  rw [remoteDialsOf, List.filterMap_eq_nil_iff]
  intro ev hev
  have := h ev hev
  cases ev <;> simp_all [sessionEvent]

theorem sessionFree_no_closeLocal (tr : List Event) (h : sessionFree tr) :
    Event.closeLocal ∉ tr := fun hm => by
  simpa [sessionEvent] using h _ hm

theorem sessionFree_count_closeLocal (tr : List Event) (h : sessionFree tr) :
    tr.count Event.closeLocal = 0 :=
  List.count_eq_zero.mpr (sessionFree_no_closeLocal tr h)

theorem breakAtChar_append (c : Char) :
    ∀ (user addr : List Char), c ∉ user →
      breakAtChar c (user ++ c :: addr) = some (user, addr) := by
  intro user
  induction user with
  | nil => intro addr _; simp [breakAtChar]
  | cons x u' ih =>
    intro addr h
    have hx : ¬ x = c := fun hh => h (hh ▸ List.mem_cons_self x u')
    have h' : c ∉ u' := fun hh => h (List.mem_cons_of_mem x hh)
    simp [breakAtChar, hx, ih addr h']

/-- Claim C10: the aggregate Closer `sshCleanup.Close` closes the
accumulated hop clients in reverse order of establishment (last-dialed hop
closed first, via the LIFO defer stack), and returns the first non-nil
close error encountered in that reverse order, discarding later ones. -/
theorem sshCleanup_close_reverse (clients : List Nat)
    (closeErr : Nat → Option String) :
    (sshCleanupClose clients closeErr).2 =
      Event.closeCall :: clients.reverse.map Event.closeHop ∧
    (sshCleanupClose clients closeErr).1 =
      clients.reverse.findSome? closeErr := by
  simp [sshCleanupClose_eq]

/-- Claim C9: for every host entry with a username part (no `@` in it) and
an address part, `splitSingleHost` returns the address with `:22` appended
when the address contains no colon (the code's check for a missing port),
and returns the address unchanged otherwise. -/
theorem splitSingleHost_port_default (user addr : List Char)
    (h : '@' ∉ user) :
    (addr.contains ':' = false →
      splitSingleHost (user ++ '@' :: addr) =
        Except.ok (user, addr ++ String.toList (":22"))) ∧
    (addr.contains ':' = true →
      splitSingleHost (user ++ '@' :: addr) = Except.ok (user, addr)) := by
  constructor <;> intro hc
  · have hm : ':' ∉ addr := by
      intro hmem
      have hh := List.elem_iff.mpr hmem
      simp only [List.contains] at hc
      rw [hh] at hc
      exact Bool.noConfusion hc
    simp [splitSingleHost, breakAtChar_append '@' user addr h, hc, hm]
  · have hm : ':' ∈ addr := List.elem_iff.mp hc
    simp [splitSingleHost, breakAtChar_append '@' user addr h, hc, hm]

/-- Witness for C9 at the concrete host `u@h`. -/
theorem splitSingleHost_port_default_witness :
    ('@' ∉ String.toList ("u")) ∧
    splitSingleHost (String.toList ("u") ++ '@' :: String.toList ("h")) =
      Except.ok (String.toList ("u"),
        String.toList ("h") ++ String.toList (":22")) :=
  ⟨by decide,
    (splitSingleHost_port_default (String.toList ("u")) (String.toList ("h"))
      (by decide)).1 (by decide)⟩

/-- Claim C8: `newClient` fails with a configuration error, emitting no
hop dial, whenever the address list is empty or the number of per-hop
configs differs from the number of addresses; its whole trace is the bare
entry event. -/
theorem newClient_config_guard (addrs : List String) (configs : List Config)
    (env : Env) (h : addrs.length ≠ configs.length ∨ addrs = []) :
    ((newClient addrs configs env).1 =
        Except.error ("newClient: len(config) != len(addrs)") ∨
      (newClient addrs configs env).1 =
        Except.error ("no addresses provided")) ∧
    (newClient addrs configs env).2 = [Event.buildCall] := by
  rcases h with hne | he
  · simp [newClient, hne]
  · subst he
    by_cases hc : configs.length = 0
    · simp [newClient, hc]
    · have hc' : 0 ≠ configs.length := fun hh => hc hh.symm
      simp [newClient, hc']

/-- Witness for C8: empty address list with one config. -/
theorem newClient_config_guard_witness :
    (([] : List String).length ≠ ([("u")] : List Config).length ∨
      ([] : List String) = []) ∧
    (((newClient [] [("u")] envAllOk).1 =
        Except.error ("newClient: len(config) != len(addrs)") ∨
      (newClient [] [("u")] envAllOk).1 =
        Except.error ("no addresses provided")) ∧
      (newClient [] [("u")] envAllOk).2 = [Event.buildCall]) :=
  ⟨Or.inl (by decide),
    newClient_config_guard [] [("u")] envAllOk (Or.inl (by decide))⟩

/-- Claim C7: under sequential invocation from the zero counter, the
counter after `n` invocations of `scheduleReconnect` is `n` and exactly
`n / 1000` background rebuilds have been triggered; in particular
invocations `1..999` trigger none and each crossing of a multiple of 1000
triggers exactly one. -/
theorem scheduleReconnect_cadence (n : Nat) (h : n < uint64Mod) :
    (schedRun n).1 = n ∧ (schedRun n).2 = n / counterCycle ∧
    (n < counterCycle → (schedRun n).2 = 0) := by
  have main : ∀ m, m < uint64Mod →
      (schedRun m).1 = m ∧ (schedRun m).2 = m / counterCycle := by
    intro m
    induction m with
    | zero => intro _; simp [schedRun]
    | succ m ih =>
      intro hm
      obtain ⟨ih1, ih2⟩ := ih (Nat.lt_of_succ_lt hm)
      simp only [schedRun, ih1, ih2, scheduleReconnect]
      rw [Nat.mod_eq_of_lt hm]
      refine ⟨rfl, ?_⟩
      by_cases hd : (m + 1) % counterCycle = 0
      · rw [Nat.succ_div_of_dvd (Nat.dvd_of_mod_eq_zero hd)]
        simp [hd]
      · have hdvd : ¬ counterCycle ∣ (m + 1) := by
          intro hh
          obtain ⟨t, ht⟩ := hh
          exact hd (by rw [ht]; exact Nat.mul_mod_right _ _)
        rw [Nat.succ_div_of_not_dvd hdvd]
        simp [hd]
  obtain ⟨h1, h2⟩ := main n h
  exact ⟨h1, h2, fun hlt => by rw [h2]; exact Nat.div_eq_of_lt hlt⟩

/-- Witness for C7 after 1000 sequential invocations: the counter is 1000
and exactly one rebuild has been triggered. -/
theorem scheduleReconnect_cadence_witness :
    (1000 < uint64Mod) ∧
    ((schedRun 1000).1 = 1000 ∧ (schedRun 1000).2 = 1000 / counterCycle ∧
      (1000 < counterCycle → (schedRun 1000).2 = 0)) :=
  ⟨by decide, scheduleReconnect_cadence 1000 (by decide)⟩

/-- Claim C3: `reconnect` swaps the shared state to the newly built handle
and returns it when the build succeeds, and returns the error leaving the
shared state completely untouched when the build fails. -/
theorem reconnect_frame (addrs : List String) (configs : List Config)
    (st : SState) (env : Env) :
    (∀ e, (newClient addrs configs env).1 = Except.error e →
      reconnect addrs configs st env =
        (st, none, some e,
          Event.rebuildCall :: (newClient addrs configs env).2)) ∧
    (∀ q, (newClient addrs configs env).1 = Except.ok q →
      reconnect addrs configs st env =
        (⟨q.1, q.2⟩, q.1, none,
          Event.rebuildCall :: (newClient addrs configs env).2)) := by
  constructor <;> intro x hx <;> simp [reconnect, hx]

/-- Witness for C3: a failing build (empty hop list) leaves the shared
state `⟨some 7, [7]⟩` untouched; a succeeding one-hop build swaps it. -/
theorem reconnect_frame_witness :
    ((newClient [] ([] : List Config) envAllOk).1 =
        Except.error ("no addresses provided") ∧
      reconnect [] [] ⟨some 7, [7]⟩ envAllOk =
        (⟨some 7, [7]⟩, none, some ("no addresses provided"),
          Event.rebuildCall :: (newClient [] ([] : List Config) envAllOk).2)) ∧
    ((newClient [("a:22")] [("u")] envAllOk).1 = Except.ok (some 0, [0]) ∧
      reconnect [("a:22")] [("u")] ⟨some 7, [7]⟩ envAllOk =
        (⟨some 0, [0]⟩, some 0, none,
          Event.rebuildCall :: (newClient [("a:22")] [("u")] envAllOk).2)) :=
  ⟨⟨rfl, (reconnect_frame [] [] ⟨some 7, [7]⟩ envAllOk).1
      ("no addresses provided") rfl⟩,
    ⟨rfl, (reconnect_frame [("a:22")] [("u")] ⟨some 7, [7]⟩ envAllOk).2
      (some 0, [0]) rfl⟩⟩

/-- Claim C4: when `connect` finds the shared handle not alive and the
build fails, it clears the shared state to the empty handle (nil client,
nil closer) while returning the error, so a later `connect` on that state
attempts a fresh build. -/
theorem connect_clears_on_failure (addrs : List String)
    (configs : List Config) (st : SState) (env : Env) (e : String)
    (hAlive : (clientAlive st.client st.closer env).1 = false)
    (hBuild : (newClient addrs configs env).1 = Except.error e) :
    connect addrs configs st env =
      (⟨none, []⟩, none, some e,
        (clientAlive st.client st.closer env).2 ++
          (newClient addrs configs env).2) ∧
    ∀ envB : Env,
      Event.buildCall ∈ (connect addrs configs ⟨none, []⟩ envB).2.2.2 := by
  constructor
  · simp [connect, hAlive, hBuild]
  · intro envB
    cases hn : (newClient addrs configs envB).1 <;>
      simp [connect, clientAlive, hn, newClient_buildCall]

/-- Witness for C4: a dead probe plus a failing first hop clear the shared
state `⟨some 3, [3]⟩` to the empty handle. -/
theorem connect_clears_on_failure_witness :
    ((clientAlive (some 3) [3] envDown).1 = false ∧
      (newClient [("a:22")] [("u")] envDown).1 = Except.error ("down")) ∧
    connect [("a:22")] [("u")] ⟨some 3, [3]⟩ envDown =
      (⟨none, []⟩, none, some ("down"),
        (clientAlive (some 3) [3] envDown).2 ++
          (newClient [("a:22")] [("u")] envDown).2) ∧
    Event.buildCall ∈
      (connect [("a:22")] [("u")] ⟨none, []⟩ envAllOk).2.2.2 :=
  ⟨⟨rfl, rfl⟩,
    (connect_clears_on_failure [("a:22")] [("u")] ⟨some 3, [3]⟩ envDown
      ("down") rfl rfl).1,
    (connect_clears_on_failure [("a:22")] [("u")] ⟨some 3, [3]⟩ envDown
      ("down") rfl rfl).2 envAllOk⟩

/-- Claim C5 counterexample: `clientAlive` on a nil client returns `false`
without ever invoking the Closer (the claim asserts the Closer is invoked
for every handle, including a nil one). -/
theorem clientAlive_nil_counterexample :
    (clientAlive none [5] envAllOk).1 = false ∧
    Event.closeCall ∉ (clientAlive none [5] envAllOk).2 := by
  constructor
  · rfl
  · intro h
    simp [clientAlive] at h

/-- Claim C5 (amended): for every non-nil handle, whenever `clientAlive`
returns `false` its Closer has been invoked before the call returns; a nil
handle is reported not alive with an empty trace (no probe, no close). -/
theorem clientAlive_false_closes (c : Nat) (cleanup : List Nat) (env : Env) :
    ((clientAlive (some c) cleanup env).1 = false →
      Event.closeCall ∈ (clientAlive (some c) cleanup env).2) ∧
    clientAlive none cleanup env = (false, []) := by
  constructor
  · intro h
    by_cases hk : env.keepalive c
    · simp [clientAlive, hk] at h
    · simp [clientAlive, hk, sshCleanupClose_eq]
  · rfl

/-- Witness for C5 at a dead two-element chain. -/
theorem clientAlive_false_closes_witness :
    (clientAlive (some 2) [2] envDead).1 = false ∧
    Event.closeCall ∈ (clientAlive (some 2) [2] envDead).2 :=
  ⟨rfl, (clientAlive_false_closes 2 [2] envDead).1 rfl⟩

/-- Claim C1 counterexample: when the single hop `h:22` fails with the
error `boom`, `newClient` returns the error `boom` itself; the failing
hop's address is not part of the returned error in any form (it is not
even a substring), so the returned error is not tagged with the address. -/
theorem newClient_untagged_counterexample :
    (newClient [("h:22")] [("u")] envBoom).1 = Except.error ("boom") ∧
    ¬ (String.toList ("h:22") <:+: String.toList ("boom")) := by
  constructor
  · rfl
  · decide

/-- Claim C1 (amended): if hop `k` (0-based) is the first hop to fail,
`newClient` returns that hop's original dial/handshake error unchanged,
exactly the previously established clients `0..k-1` are closed (each
exactly once, regardless of the outcome of each close attempt, since the
close outcomes `env.closeErr` are unconstrained), the failing hop is never
added to the closer set, no hop beyond `k` is dialed, and the failing
hop's address is recorded in a log line rather than in the error. -/
theorem newClient_failure_cleanup (addrs : List String)
    (configs : List Config) (env : Env) (k : Nat) (e : String)
    (hlen : addrs.length = configs.length) (hk : k < addrs.length)
    (hpre : ∀ j, j < k → env.hopErr j = none)
    (hfail : env.hopErr k = some e) :
    (newClient addrs configs env).1 = Except.error e ∧
    dialsOf (newClient addrs configs env).2 = List.range (k + 1) ∧
    closesOf (newClient addrs configs env).2 = (List.range k).reverse ∧
    Event.log ("Failed to connect to " ++ addrs.get ⟨k, hk⟩ ++ ": " ++ e) ∈
      (newClient addrs configs env).2 :=
  newClient_fail addrs configs env k e hlen hk hpre hfail

/-- Witness for C1: two hops, the second fails; hop client 0 is closed,
hops 0 and 1 were dialed, and the failure is logged with address `b:22`. -/
theorem newClient_failure_cleanup_witness :
    (newClient [("a:22"), ("b:22")] [("u"), ("v")] envDrop).1 =
      Except.error ("neterr") ∧
    dialsOf (newClient [("a:22"), ("b:22")] [("u"), ("v")] envDrop).2 =
      List.range 2 ∧
    closesOf (newClient [("a:22"), ("b:22")] [("u"), ("v")] envDrop).2 =
      (List.range 1).reverse ∧
    Event.log ("Failed to connect to " ++ ("b:22") ++ ": " ++ ("neterr")) ∈
      (newClient [("a:22"), ("b:22")] [("u"), ("v")] envDrop).2 := by
  have h := newClient_failure_cleanup [("a:22"), ("b:22")] [("u"), ("v")]
    envDrop 1 ("neterr") rfl (by decide)
    (fun j hj => by
      have hj0 : j = 0 := by omega
      subst hj0; rfl)
    rfl
  simpa using h

set_option maxRecDepth 4000 in
/-- Claim C6 counterexample: in `newClient`'s failure cleanup the close of
client 0 is attempted and fails with `closefail`, that error is discarded
(`c.Close()`'s result is ignored) and `closefail` appears nowhere in the
log, not even as a substring — an error dropped without a log line. -/
theorem close_error_unlogged_counterexample :
    (newClient [("a:22"), ("b:22")] [("x"), ("y")] envDrop).1 =
      Except.error ("neterr") ∧
    Event.closeHop 0 ∈
      (newClient [("a:22"), ("b:22")] [("x"), ("y")] envDrop).2 ∧
    envDrop.closeErr 0 = some ("closefail") ∧
    ¬ (String.toList ("closefail") <:+:
        concatLogs (newClient [("a:22"), ("b:22")] [("x"), ("y")] envDrop).2) := by
  refine ⟨rfl, by decide, rfl, by decide⟩

/-- Claim C6 (amended): hop dial/handshake errors are logged inside the
builder before being dropped: when `connect` fails in `forward`'s first
step because hop `k` failed (the only failure mode under main's startup
guarantees of equal list lengths and a nonempty hop list), the error has
been logged together with the failing hop's address before the local
connection's deferred close, which is the last event of the session and
occurs exactly once, and the session stops.  Configuration errors of the
builder and close errors of the failure cleanup, by contrast, are dropped
unlogged (see the counterexample). -/
theorem forward_connect_failure_logged (remoteAddr : String)
    (addrs : List String) (configs : List Config) (st : SState) (env1 : Env)
    (dial1 : Option String) (env2 : Env) (dial2 : Option String)
    (counter : Nat) (k : Nat) (e : String)
    (hlen : addrs.length = configs.length) (hk : k < addrs.length)
    (hpre : ∀ j, j < k → env1.hopErr j = none)
    (hfail : env1.hopErr k = some e)
    (hAlive : (clientAlive st.client st.closer env1).1 = false) :
    (forward remoteAddr addrs configs st env1 dial1 env2 dial2
        counter).2.2.1 = false ∧
    (forward remoteAddr addrs configs st env1 dial1 env2 dial2
        counter).2.2.2.getLast? = some Event.closeLocal ∧
    (forward remoteAddr addrs configs st env1 dial1 env2 dial2
        counter).2.2.2.count Event.closeLocal = 1 ∧
    Event.log ("Failed to connect to " ++ addrs.get ⟨k, hk⟩ ++ ": " ++ e) ∈
      (forward remoteAddr addrs configs st env1 dial1 env2 dial2
        counter).2.2.2 := by
  obtain ⟨h1, _, _, h4⟩ := newClient_fail addrs configs env1 k e hlen hk hpre hfail
  have hC : connect addrs configs st env1 =
      (⟨none, []⟩, none, some e,
        (clientAlive st.client st.closer env1).2 ++
          (newClient addrs configs env1).2) := by
    simp [connect, hAlive, h1]
  have hF : forward remoteAddr addrs configs st env1 dial1 env2 dial2 counter =
      (⟨none, []⟩, counter, false,
        ((clientAlive st.client st.closer env1).2 ++
          (newClient addrs configs env1).2) ++ [Event.closeLocal]) := by
    simp [forward, hC]
  rw [hF]
  refine ⟨rfl, List.getLast?_concat _, ?_, ?_⟩
  · rw [List.count_append, List.count_append,
      sessionFree_count_closeLocal _ (sessionFree_clientAlive _ _ _),
      sessionFree_count_closeLocal _ (sessionFree_newClient _ _ _)]
    rfl
  · exact List.mem_append_left _ (List.mem_append_right _ h4)

/-- Witness for C6: a single hop failing with `boom`; the session stops
with the failure logged before the local close. -/
theorem forward_connect_failure_logged_witness :
    (forward ("r:80") [("a:22")] [("u")] ⟨none, []⟩ envBoom none envAllOk
        none 0).2.2.1 = false ∧
    (forward ("r:80") [("a:22")] [("u")] ⟨none, []⟩ envBoom none envAllOk
        none 0).2.2.2.getLast? = some Event.closeLocal ∧
    (forward ("r:80") [("a:22")] [("u")] ⟨none, []⟩ envBoom none envAllOk
        none 0).2.2.2.count Event.closeLocal = 1 ∧
    Event.log ("Failed to connect to " ++ ("a:22") ++ ": " ++ ("boom")) ∈
      (forward ("r:80") [("a:22")] [("u")] ⟨none, []⟩ envBoom none envAllOk
        none 0).2.2.2 := by
  have h := forward_connect_failure_logged ("r:80") [("a:22")] [("u")]
    ⟨none, []⟩ envBoom none envAllOk none 0 0 ("boom") rfl (by decide)
    (fun j hj => absurd hj (by omega)) rfl rfl
  simpa using h

/-- Claim C2: when `connect` succeeds in `forward` but the first channel
open to the remote address fails, exactly one `reconnect` is performed,
and the channel open is retried exactly once, against the client returned
by that rebuild; if the rebuild fails there is no retry at all, and if the
rebuild succeeds but the second open fails there are exactly the two open
attempts — in both failure cases the session never reaches the copy phase
and ends with the deferred close of the local connection. -/
theorem forward_retry_once (remoteAddr : String) (addrs : List String)
    (configs : List Config) (st : SState) (env1 : Env) (e : String)
    (env2 : Env) (dial2 : Option String) (counter : Nat)
    (hC : (connect addrs configs st env1).2.2.1 = none) :
    (forward remoteAddr addrs configs st env1 (some e) env2 dial2
        counter).2.2.2.count Event.rebuildCall = 1 ∧
    ((reconnect addrs configs (connect addrs configs st env1).1
          env2).2.2.1.isSome = true →
      (forward remoteAddr addrs configs st env1 (some e) env2 dial2
          counter).2.2.1 = false ∧
      remoteDialsOf (forward remoteAddr addrs configs st env1 (some e) env2
          dial2 counter).2.2.2 =
        [(connect addrs configs st env1).2.1.getD 0] ∧
      (forward remoteAddr addrs configs st env1 (some e) env2 dial2
          counter).2.2.2.getLast? = some Event.closeLocal) ∧
    ((reconnect addrs configs (connect addrs configs st env1).1
          env2).2.2.1 = none → dial2.isSome = true →
      (forward remoteAddr addrs configs st env1 (some e) env2 dial2
          counter).2.2.1 = false ∧
      remoteDialsOf (forward remoteAddr addrs configs st env1 (some e) env2
          dial2 counter).2.2.2 =
        [(connect addrs configs st env1).2.1.getD 0,
          (reconnect addrs configs (connect addrs configs st env1).1
            env2).2.1.getD 0] ∧
      (forward remoteAddr addrs configs st env1 (some e) env2 dial2
          counter).2.2.2.getLast? = some Event.closeLocal) ∧
    ((reconnect addrs configs (connect addrs configs st env1).1
          env2).2.2.1 = none → dial2 = none →
      remoteDialsOf (forward remoteAddr addrs configs st env1 (some e) env2
          dial2 counter).2.2.2 =
        [(connect addrs configs st env1).2.1.getD 0,
          (reconnect addrs configs (connect addrs configs st env1).1
            env2).2.1.getD 0]) := by
  have hCfree := sessionFree_connect addrs configs st env1
  have hNfree := sessionFree_newClient addrs configs env2
  have hRtr := reconnect_trace addrs configs
    (connect addrs configs st env1).1 env2
  have rdC := sessionFree_remoteDials _ hCfree
  have rdN := sessionFree_remoteDials _ hNfree
  have cntC := sessionFree_count_rebuild _ hCfree
  have cntN := sessionFree_count_rebuild _ hNfree
  rcases hr : (reconnect addrs configs (connect addrs configs st env1).1
      env2).2.2.1 with _ | e2
  · -- the rebuild succeeded
    cases dial2 with
    | none =>
      have hF : forward remoteAddr addrs configs st env1 (some e) env2
          none counter =
          ((reconnect addrs configs (connect addrs configs st env1).1
              env2).1,
            (scheduleReconnect counter).1, true,
            ((connect addrs configs st env1).2.2.2 ++
              [Event.dialRemote ((connect addrs configs st env1).2.1.getD 0),
                Event.log ("Failed to dial " ++ remoteAddr ++
                  ", attempting to reconnect: " ++ e)]) ++
              ((reconnect addrs configs (connect addrs configs st env1).1
                  env2).2.2.2 ++
                ([Event.dialRemote ((reconnect addrs configs
                    (connect addrs configs st env1).1 env2).2.1.getD 0)] ++
                  ((if (scheduleReconnect counter).2 then
                      [Event.log ("scheduling reconnect"),
                        Event.spawnRebuild]
                    else []) ++ [Event.closeLocal])))) := by
        simp only [forward, hC, hr]
        simp [List.append_assoc]
      rw [hF]
      refine ⟨?_, ?_, ?_, ?_⟩
      · simp only [List.count_append, hRtr, List.count_cons, cntC, cntN]
        cases hs : (scheduleReconnect counter).2 <;> simp
      · intro hss; simp at hss
      · intro _ hss; simp at hss
      · intro _ _
        simp only [remoteDialsOf, List.filterMap_append, hRtr,
          List.filterMap_cons]
        simp only [remoteDialsOf] at rdC rdN
        rw [rdC, rdN]
        cases hs : (scheduleReconnect counter).2 <;> simp
    | some e2' =>
      have hF : forward remoteAddr addrs configs st env1 (some e) env2
          (some e2') counter =
          ((reconnect addrs configs (connect addrs configs st env1).1
              env2).1, counter, false,
            ((connect addrs configs st env1).2.2.2 ++
              [Event.dialRemote ((connect addrs configs st env1).2.1.getD 0),
                Event.log ("Failed to dial " ++ remoteAddr ++
                  ", attempting to reconnect: " ++ e)]) ++
              ((reconnect addrs configs (connect addrs configs st env1).1
                  env2).2.2.2 ++
                [Event.dialRemote ((reconnect addrs configs
                    (connect addrs configs st env1).1 env2).2.1.getD 0),
                  Event.log ("Failed to dial " ++ remoteAddr ++
                    " (final): " ++ e2'),
                  Event.closeLocal])) := by
        simp only [forward, hC, hr]
        simp [List.append_assoc]
      rw [hF]
      refine ⟨?_, ?_, ?_, ?_⟩
      · simp only [List.count_append, hRtr, List.count_cons, cntC, cntN]
        simp
      · intro hss; simp at hss
      · intro _ _
        refine ⟨rfl, ?_, ?_⟩
        · simp only [remoteDialsOf, List.filterMap_append, hRtr,
            List.filterMap_cons]
          simp only [remoteDialsOf] at rdC rdN
          rw [rdC, rdN]
          simp
        · rw [List.getLast?_append, List.getLast?_append, List.getLast?_append]
          rfl
      · intro _ hss; simp at hss
  · -- the rebuild failed
    have hF : forward remoteAddr addrs configs st env1 (some e) env2
        dial2 counter =
        ((reconnect addrs configs (connect addrs configs st env1).1
            env2).1, counter, false,
          ((connect addrs configs st env1).2.2.2 ++
            [Event.dialRemote ((connect addrs configs st env1).2.1.getD 0),
              Event.log ("Failed to dial " ++ remoteAddr ++
                ", attempting to reconnect: " ++ e)]) ++
            ((reconnect addrs configs (connect addrs configs st env1).1
                env2).2.2.2 ++ [Event.closeLocal])) := by
      simp only [forward, hC, hr]
      simp [List.append_assoc]
    rw [hF]
    refine ⟨?_, ?_, ?_, ?_⟩
    · simp only [List.count_append, hRtr, List.count_cons, cntC, cntN]
      simp
    · intro _
      refine ⟨rfl, ?_, ?_⟩
      · simp only [remoteDialsOf, List.filterMap_append, hRtr,
          List.filterMap_cons]
        simp only [remoteDialsOf] at rdC rdN
        rw [rdC, rdN]
        simp
      · rw [List.getLast?_append, List.getLast?_append, List.getLast?_append]
        rfl
    · intro hss; exact Option.noConfusion hss
    · intro hss; exact Option.noConfusion hss

/-- Witness for C2: one healthy hop, the first open to the remote fails
with `d1`, the rebuild and the retry succeed: one rebuild, two open
attempts, the second against the rebuilt client 0. -/
theorem forward_retry_once_witness :
    (forward ("r:80") [("a:22")] [("u")] ⟨none, []⟩ envAllOk (some ("d1"))
        envAllOk none 0).2.2.2.count Event.rebuildCall = 1 ∧
    ((reconnect [("a:22")] [("u")]
          (connect [("a:22")] [("u")] ⟨none, []⟩ envAllOk).1
          envAllOk).2.2.1.isSome = true →
      (forward ("r:80") [("a:22")] [("u")] ⟨none, []⟩ envAllOk (some ("d1"))
          envAllOk none 0).2.2.1 = false ∧
      remoteDialsOf (forward ("r:80") [("a:22")] [("u")] ⟨none, []⟩ envAllOk
          (some ("d1")) envAllOk none 0).2.2.2 =
        [(connect [("a:22")] [("u")] ⟨none, []⟩ envAllOk).2.1.getD 0] ∧
      (forward ("r:80") [("a:22")] [("u")] ⟨none, []⟩ envAllOk (some ("d1"))
          envAllOk none 0).2.2.2.getLast? = some Event.closeLocal) ∧
    ((reconnect [("a:22")] [("u")]
          (connect [("a:22")] [("u")] ⟨none, []⟩ envAllOk).1
          envAllOk).2.2.1 = none → (none : Option String).isSome = true →
      (forward ("r:80") [("a:22")] [("u")] ⟨none, []⟩ envAllOk (some ("d1"))
          envAllOk none 0).2.2.1 = false ∧
      remoteDialsOf (forward ("r:80") [("a:22")] [("u")] ⟨none, []⟩ envAllOk
          (some ("d1")) envAllOk none 0).2.2.2 =
        [(connect [("a:22")] [("u")] ⟨none, []⟩ envAllOk).2.1.getD 0,
          (reconnect [("a:22")] [("u")]
            (connect [("a:22")] [("u")] ⟨none, []⟩ envAllOk).1
            envAllOk).2.1.getD 0] ∧
      (forward ("r:80") [("a:22")] [("u")] ⟨none, []⟩ envAllOk (some ("d1"))
          envAllOk none 0).2.2.2.getLast? = some Event.closeLocal) ∧
    ((reconnect [("a:22")] [("u")]
          (connect [("a:22")] [("u")] ⟨none, []⟩ envAllOk).1
          envAllOk).2.2.1 = none → (none : Option String) = none →
      remoteDialsOf (forward ("r:80") [("a:22")] [("u")] ⟨none, []⟩ envAllOk
          (some ("d1")) envAllOk none 0).2.2.2 =
        [(connect [("a:22")] [("u")] ⟨none, []⟩ envAllOk).2.1.getD 0,
          (reconnect [("a:22")] [("u")]
            (connect [("a:22")] [("u")] ⟨none, []⟩ envAllOk).1
            envAllOk).2.1.getD 0]) :=
  forward_retry_once ("r:80") [("a:22")] [("u")] ⟨none, []⟩ envAllOk ("d1")
    envAllOk none 0 rfl

end Sshpunc
